import Mathlib

/-!
Shallow embedding of the real-time ingestion and publish pipeline of the
smart-traffic-monitoring service.

Source files embedded:
* `app/api/data.py` — the ingestion endpoints `ingest_real_time_data`,
  `ingest_batch_data`, `get_measurement_by_id`, `get_all_measurements`;
* `app/core/kafka_config.py` — `KafkaClient` (producer lifecycle and
  `send_message`);
* `app/schemas/measurements.py` — the pydantic payload schema
  `MeasurementCreate`;
* `app/models/measurements.py` — the `TrafficMeasurement` row type with its
  `ForeignKey("sensors.id")` column and store-assigned `id` / `created_at`.

Modelling conventions: datetimes are abstract integers; `speed` (Python
`float`) is carried as `Rat` — no arithmetic is ever performed on it, it is
only stored and compared; the relational store (Postgres in
`app/database.py`) is explicit state, with the declared foreign-key
constraint on `sensor_id` enforced at insert/commit; the external aiokafka
producer is an abstract collaborator with a start/close lifecycle whose
send operation is valid only while started, and whose acknowledgement
outcome is supplied by an oracle (`Bool` per call, `Nat → Bool` per batch
index) so that broker success and failure scenarios can be quantified over.
Python exceptions are mapped onto the error taxonomy of the design
(`ValidationError`, `ReferentialError`, `StorageError`, `PublishError`,
`IllegalStateError`, plus the 404 of the read endpoint).
-/

namespace Traffic

/-- Error taxonomy of the pipeline: validation failures raised by the
schema layer, referential (foreign-key) violations raised by the store,
storage failures, publish failures re-raised by `KafkaClient.send_message`,
illegal producer-lifecycle use, and the 404 of `get_measurement_by_id`. -/
inductive IngestError where
  | validationError
  | referentialError
  | storageError
  | publishError
  | illegalStateError
  | notFound
  deriving DecidableEq, Repr

/-- A validated measurement-creation payload, embedding the pydantic model
`MeasurementCreate` (= `MeasurementBase`): required `sensor_id : int`,
required `timestamp : datetime`, optional `speed : float`, optional
`vehicle_count : int` (no sign constraint is declared on it). -/
structure MeasurementCreate where
  sensor_id : Int
  timestamp : Int
  speed : Option Rat
  vehicle_count : Option Int
  deriving DecidableEq, Repr

/-- A persisted row of the `traffic_measurements` table
(`app/models/measurements.py`): store-assigned primary key `id`, the
payload columns, and the store-assigned `created_at` timestamp. -/
structure TrafficMeasurement where
  id : Nat
  sensor_id : Int
  timestamp : Int
  speed : Option Rat
  vehicle_count : Option Int
  created_at : Nat
  deriving DecidableEq, Repr

/-- The relational store: the set of existing sensor primary keys (the
target of the `ForeignKey("sensors.id")` column), the measurement rows, the
next auto-assigned primary key, and a clock supplying `created_at`
(`default=datetime.utcnow`, monotonic per process). -/
structure Store where
  sensors : List Int
  rows : List TrafficMeasurement
  nextId : Nat
  clock : Nat
  deriving DecidableEq, Repr

/-- Append one row, assigning `id` and `created_at`, returning the stored
row (as `db.refresh` re-reads it) together with the updated store. -/
def Store.insertRow (st : Store) (m : MeasurementCreate) :
    TrafficMeasurement × Store :=
  let r : TrafficMeasurement :=
    ⟨st.nextId, m.sensor_id, m.timestamp, m.speed, m.vehicle_count, st.clock⟩
  (r, { st with rows := st.rows ++ [r], nextId := st.nextId + 1, clock := st.clock + 1 })

/-- Single insert-and-commit (`db.add` / `db.commit` / `db.refresh`): the
declared foreign-key constraint on `sensor_id` is checked at commit; a
violation aborts the transaction with a referential error and leaves the
store unchanged. -/
def Store.insert (st : Store) (m : MeasurementCreate) :
    Except IngestError (TrafficMeasurement × Store) :=
  if st.sensors.contains m.sensor_id then .ok (st.insertRow m)
  else .error .referentialError

/-- The store after bulk-appending a list of rows in order. -/
def Store.bulkRows (st : Store) (ms : List MeasurementCreate) : Store :=
  ms.foldl (fun acc m => (acc.insertRow m).2) st

/-- Bulk insert (`db.bulk_save_objects` / `db.commit`): one transaction;
every row's foreign key is checked at commit, and a violation aborts the
whole transaction (no rows become visible). -/
def Store.insertMany (st : Store) (ms : List MeasurementCreate) :
    Except IngestError Store :=
  if ms.all (fun m => st.sensors.contains m.sensor_id) then
    .ok (st.bulkRows ms)
  else .error .referentialError

/-- Well-formedness of the store: every persisted row's primary key is
below the next auto-assigned key (auto-increment discipline). -/
def Store.Wf (st : Store) : Prop :=
  ∀ r ∈ st.rows, r.id < st.nextId

/-- The lifecycle state of the external producer session held by a
`KafkaClient`: started by `AIOKafkaProducer.start`, closed by the client's
`close`; a closed producer rejects further sends. -/
inductive ProducerState where
  | started
  | closed
  deriving DecidableEq, Repr

/-- The `KafkaClient` of `app/core/kafka_config.py`: its only lifecycle-relevant
state is `self.producer`, `None` until initialization installs a started
producer session. -/
structure KafkaClient where
  producer : Option ProducerState
  deriving DecidableEq, Repr

/-- A freshly constructed client (`KafkaClient.__init__`): no producer. -/
def KafkaClient.new : KafkaClient := ⟨none⟩

/-- Embeds `KafkaClient.initialize`: unconditionally installs a fresh producer
session and starts it (there is no guard against re-initialization). -/
def KafkaClient.initClient (k : KafkaClient) : KafkaClient :=
  ⟨some ProducerState.started⟩

/-- Embeds `KafkaClient.close`: closes the held producer session; with no producer
installed the attribute access on `None` fails (mapped to
`illegalStateError`). -/
def KafkaClient.closeClient (k : KafkaClient) : Except IngestError KafkaClient :=
  match k.producer with
  | none => .error .illegalStateError
  | some _ => .ok ⟨some ProducerState.closed⟩

/-- One message acknowledged by the broker: topic, partition key, and the
JSON-serialized payload dict (`measurement_in.model_dump()`). -/
structure BrokerMsg where
  topic : String
  key : String
  value : MeasurementCreate
  deriving DecidableEq, Repr

/-- Embeds `KafkaClient.send_message`: sends through the held producer and awaits
the broker acknowledgement. With no producer, or with a closed producer,
the send fails before reaching the broker (`illegalStateError`); otherwise
the acknowledgement oracle `ack` decides success — on failure the raised
error is re-raised to the caller (`publishError`) and the broker log is
unchanged, on success the message is appended to the broker log. -/
def KafkaClient.send_message (k : KafkaClient) (ack : Bool) (topic : String)
    (value : MeasurementCreate) (key : String) (log : List BrokerMsg) :
    Except IngestError (List BrokerMsg) :=
  match k.producer with
  | none => .error .illegalStateError
  | some ProducerState.closed => .error .illegalStateError
  | some ProducerState.started =>
      if ack then .ok (log ++ [⟨topic, key, value⟩])
      else .error .publishError

/-- The observable state a request acts on: the relational store and the
log of broker-acknowledged messages. -/
structure SysState where
  store : Store
  broker : List BrokerMsg
  deriving DecidableEq, Repr

/-- The partition-keyed broker message that the ingestion code builds for a
payload: topic `"traffic-measurements"`, key `str(sensor_id)`, value the
original payload. -/
def brokerMsgOf (m : MeasurementCreate) : BrokerMsg :=
  ⟨"traffic-measurements", toString m.sensor_id, m⟩

/-- Embeds `ingest_real_time_data` of `app/api/data.py` (POST `/real-time`): insert
and commit the measurement, then publish the original payload through the
module-level global `kafka_client` (the injected `kafka` dependency is
never used) on topic `"traffic-measurements"` keyed by
`str(measurement.sensor_id)`. A commit failure aborts before any publish;
a publish failure propagates to the caller but the already-committed row
is not rolled back. -/
def ingest_real_time_data (ack : Bool) (measurement_in : MeasurementCreate)
    (kafka : KafkaClient) (kafka_client : KafkaClient) (s : SysState) :
    Except IngestError TrafficMeasurement × SysState :=
  match s.store.insert measurement_in with
  | .error e => (.error e, s)
  | .ok (measurement, st) =>
    match kafka_client.send_message ack "traffic-measurements" measurement_in
        (toString measurement.sensor_id) s.broker with
    | .error e => (.error e, { s with store := st })
    | .ok log => (.ok measurement, { store := st, broker := log })

/-- The publish loop of `ingest_batch_data`: for each payload in order,
send its message keyed by its own `sensor_id`; the first failing send
stops the loop (there is no per-item exception handling in the loop) and
the error propagates, with the messages of the already-processed prefix
remaining acknowledged. -/
def publishBatchLoop (k : KafkaClient) (ack : Nat → Bool) :
    List MeasurementCreate → Nat → List BrokerMsg →
    Option IngestError × List BrokerMsg
  | [], _, log => (none, log)
  | m :: rest, i, log =>
    match k.send_message (ack i) "traffic-measurements" m
        (toString m.sensor_id) log with
    | .error e => (some e, log)
    | .ok log2 => publishBatchLoop k ack rest (i + 1) log2

/-- Embeds `ingest_batch_data` of `app/api/data.py` (POST `/batch`): build the row
objects and publish each payload inside one loop; an exception from any
send propagates out of the handler before `bulk_save_objects` runs, so a
publish failure leaves the store untouched. Only when every send succeeded
are all rows persisted, by one bulk write and a single commit, and the
success message returned. -/
def ingest_batch_data (ack : Nat → Bool) (batch_in : List MeasurementCreate)
    (kafka_client : KafkaClient) (s : SysState) :
    Except IngestError String × SysState :=
  match publishBatchLoop kafka_client ack batch_in 0 s.broker with
  | (some e, log) => (.error e, { s with broker := log })
  | (none, log) =>
    match s.store.insertMany batch_in with
    | .error e => (.error e, { s with broker := log })
    | .ok st =>
      (.ok ("Ingested " ++ toString batch_in.length ++
            " measurements successfully."),
       { store := st, broker := log })

/-- Embeds `get_measurement_by_id` of `app/api/data.py` (GET by id):
first row whose primary key matches, else a 404 (`notFound`). -/
def get_measurement_by_id (measurement_id : Nat) (st : Store) :
    Except IngestError TrafficMeasurement :=
  match st.rows.find? (fun r => r.id == measurement_id) with
  | some r => .ok r
  | none => .error .notFound

/-- Embeds `get_all_measurements` of `app/api/data.py` (GET, list all rows). -/
def get_all_measurements (st : Store) : List TrafficMeasurement :=
  st.rows

/-- One raw (pre-validation) JSON field of an incoming request body:
absent, JSON null, an integer, a non-integer decimal number, a plain
string, or a string that parses as a datetime (carried abstractly). -/
inductive RawField where
  | missing
  | rnull
  | rint (n : Int)
  | rdec (q : Rat)
  | rstr (s : String)
  | rtime (t : Int)
  deriving DecidableEq, Repr

/-- A raw request body for the measurement schema: the four fields of
`MeasurementBase`, each possibly absent or ill-typed. -/
structure RawPayload where
  sensor_id : RawField
  timestamp : RawField
  speed : RawField
  vehicle_count : RawField
  deriving DecidableEq, Repr

/-- Pydantic validation of a required `int` field: integers pass, decimals
pass only when integral, numeric strings are coerced, everything else
(including absence and null) is a validation error. -/
def parseRequiredInt : RawField → Except IngestError Int
  | .rint n => .ok n
  | .rdec q => if q.den = 1 then .ok q.num else .error .validationError
  | .rstr str =>
    match str.toInt? with
    | some n => .ok n
    | none => .error .validationError
  | _ => .error .validationError

/-- Pydantic validation of an `Optional[int]` field: absent and null give
`none`; otherwise as a required `int`. -/
def parseOptionalInt (f : RawField) : Except IngestError (Option Int) :=
  match f with
  | .missing => .ok none
  | .rnull => .ok none
  | f => (parseRequiredInt f).map some

/-- Pydantic validation of an `Optional[float]` field: absent and null
give `none`; integers and decimals pass; strings are coerced only when
numeric (modelled by integer parsing); datetimes are rejected. -/
def parseOptionalFloat (f : RawField) : Except IngestError (Option Rat) :=
  match f with
  | .missing => .ok none
  | .rnull => .ok none
  | .rint n => .ok (some (n : Rat))
  | .rdec q => .ok (some q)
  | .rstr str =>
    match str.toInt? with
    | some n => .ok (some (n : Rat))
    | none => .error .validationError
  | .rtime _ => .error .validationError

/-- Pydantic validation of a required `datetime` field: a datetime-shaped
string passes, an integer passes (epoch coercion), everything else is a
validation error. -/
def parseRequiredTimestamp : RawField → Except IngestError Int
  | .rtime t => .ok t
  | .rint n => .ok n
  | _ => .error .validationError

/-- Validation of a whole request body against `MeasurementCreate`
(`app/schemas/measurements.py`): the four field validators in declaration
order; the first failure makes the request a validation error. Note that
`vehicle_count` carries no non-negativity constraint. -/
def MeasurementCreate.validate (raw : RawPayload) :
    Except IngestError MeasurementCreate :=
  match parseRequiredInt raw.sensor_id with
  | .error e => .error e
  | .ok sid =>
    match parseRequiredTimestamp raw.timestamp with
    | .error e => .error e
    | .ok ts =>
      match parseOptionalFloat raw.speed with
      | .error e => .error e
      | .ok sp =>
        match parseOptionalInt raw.vehicle_count with
        | .error e => .error e
        | .ok vc => .ok ⟨sid, ts, sp, vc⟩

/-- The `/real-time` endpoint including the framework's schema validation:
a body that fails `MeasurementCreate` validation is rejected before the
handler runs — no storage write and no publish happen. -/
def ingest_real_time_raw (ack : Bool) (raw : RawPayload)
    (kafka : KafkaClient) (kafka_client : KafkaClient) (s : SysState) :
    Except IngestError TrafficMeasurement × SysState :=
  match MeasurementCreate.validate raw with
  | .error _ => (.error .validationError, s)
  | .ok m => ingest_real_time_data ack m kafka kafka_client s

/-- The raw shapes the required-`int` validator of `sensor_id` refuses:
the field is missing, null, a datetime, a non-integral decimal, or a
non-numeric string — exactly the complement of what `parseRequiredInt`
accepts. -/
def sensorIdRejected : RawField → Prop
  | .rint _ => False
  | .rdec q => q.den ≠ 1
  | .rstr str => str.toInt? = none
  | _ => True

/-- The raw shapes the required-`datetime` validator of `timestamp`
refuses: the field is missing, null, a decimal, or a non-datetime string —
exactly the complement of what `parseRequiredTimestamp` accepts. -/
def timestampRejected : RawField → Prop
  | .rtime _ => False
  | .rint _ => False
  | _ => True

/-- The raw shapes the `Optional[float]` validator of `speed` refuses: a
present field that is a datetime or a non-numeric string — exactly the
complement of what `parseOptionalFloat` accepts. -/
def speedRejected : RawField → Prop
  | .rstr str => str.toInt? = none
  | .rtime _ => True
  | _ => False

/-- The raw shapes the `Optional[int]` validator of `vehicle_count`
refuses: a present field that is a datetime, a non-integral decimal, or a
non-numeric string — exactly the complement of what `parseOptionalInt`
accepts. -/
def vehicleCountRejected : RawField → Prop
  | .rdec q => q.den ≠ 1
  | .rstr str => str.toInt? = none
  | .rtime _ => True
  | _ => False

end Traffic

namespace Traffic

theorem find_append_fresh (l : List TrafficMeasurement) (r : TrafficMeasurement) (n : Nat)
    (hr : r.id = n) (h : ∀ x ∈ l, x.id ≠ n) :
    (l ++ [r]).find? (fun x => x.id == n) = some r := by
  induction l with
  | nil => simp [List.find?, hr]
  | cons a l ih =>
    have ha : (a.id == n) = false := by
      have := h a (List.mem_cons_self a l)
      simpa using this
    simp only [List.cons_append, List.find?_cons, ha]
    exact ih fun x hx => h x (List.mem_cons_of_mem a hx)

theorem get_inserted_row (st : Store) (m : MeasurementCreate) (hwf : st.Wf) :
    get_measurement_by_id st.nextId (st.insertRow m).2 = .ok (st.insertRow m).1 := by
  have h : ∀ x ∈ st.rows, x.id ≠ st.nextId := fun x hx => Nat.ne_of_lt (hwf x hx)
  simp only [get_measurement_by_id, Store.insertRow]
  rw [find_append_fresh st.rows _ st.nextId rfl h]

theorem send_message_ready (k : KafkaClient) (hk : k.producer = some ProducerState.started)
    (ack : Bool) (topic : String) (v : MeasurementCreate) (key : String)
    (log : List BrokerMsg) :
    k.send_message ack topic v key log =
      if ack then .ok (log ++ [⟨topic, key, v⟩]) else .error .publishError := by
  simp [KafkaClient.send_message, hk]

end Traffic

namespace Traffic

theorem publishBatchLoop_ok (k : KafkaClient) (hk : k.producer = some ProducerState.started)
    (ack : Nat → Bool) (batch : List MeasurementCreate) (i : Nat) (log : List BrokerMsg)
    (hok : ∀ j, j < batch.length → ack (i + j) = true) :
    publishBatchLoop k ack batch i log = (none, log ++ batch.map brokerMsgOf) := by
  induction batch generalizing i log with
  | nil => simp [publishBatchLoop]
  | cons m rest ih =>
    have h0 : ack i = true := by simpa using hok 0 (by simp)
    simp only [publishBatchLoop, send_message_ready k hk, h0, if_true]
    rw [ih (i + 1) _ ?_]
    · simp [brokerMsgOf]
    · intro j hj
      have he : i + 1 + j = i + (j + 1) := by omega
      rw [he]
      exact hok (j + 1) (by simpa using Nat.succ_lt_succ hj)

theorem publishBatchLoop_fail (k : KafkaClient) (hk : k.producer = some ProducerState.started)
    (ack : Nat → Bool) (batch : List MeasurementCreate) (i : Nat) (log : List BrokerMsg)
    (j : Nat) (hj : j < batch.length) (hfail : ack (i + j) = false)
    (hpre : ∀ x, x < j → ack (i + x) = true) :
    publishBatchLoop k ack batch i log =
      (some .publishError, log ++ (batch.take j).map brokerMsgOf) := by
  induction batch generalizing i log j with
  | nil => simp at hj
  | cons m rest ih =>
    cases j with
    | zero =>
      have h0 : ack i = false := by simpa using hfail
      simp [publishBatchLoop, send_message_ready k hk, h0]
    | succ j =>
      have h0 : ack i = true := by simpa using hpre 0 (Nat.succ_pos j)
      simp only [publishBatchLoop, send_message_ready k hk, h0, if_true]
      rw [ih (i + 1) _ j (by simpa using Nat.lt_of_succ_lt_succ hj) ?_ ?_]
      · simp [brokerMsgOf, List.take_succ_cons]
      · have he : i + 1 + j = i + (j + 1) := by omega
        rw [he]; exact hfail
      · intro x hx
        have he : i + 1 + x = i + (x + 1) := by omega
        rw [he]; exact hpre (x + 1) (by omega)

theorem bulkRows_length (ms : List MeasurementCreate) (st : Store) :
    (st.bulkRows ms).rows.length = st.rows.length + ms.length := by
  induction ms generalizing st with
  | nil => rfl
  | cons m rest ih =>
    have h : st.bulkRows (m :: rest) = ((st.insertRow m).2).bulkRows rest := rfl
    rw [h, ih]
    simp [Store.insertRow]
    omega

end Traffic

namespace Traffic

/-- Claim C1: when the store insert commits and the subsequent broker publish
fails, single ingest surfaces the publish error and the committed row is not
rolled back — it is still retrievable from the store by its assigned id. -/
theorem single_ingest_publish_failure_not_rolled_back
    (m : MeasurementCreate) (kafka kc : KafkaClient) (s : SysState)
    (hwf : s.store.Wf)
    (hs : m.sensor_id ∈ s.store.sensors)
    (hready : kc.producer = some ProducerState.started) :
    (ingest_real_time_data false m kafka kc s).1 = .error .publishError ∧
    get_measurement_by_id s.store.nextId
        (ingest_real_time_data false m kafka kc s).2.store =
      .ok ⟨s.store.nextId, m.sensor_id, m.timestamp, m.speed, m.vehicle_count,
           s.store.clock⟩ := by
  have hget := get_inserted_row s.store m hwf
  simp only [Store.insertRow] at hget
  simp [ingest_real_time_data, Store.insert, Store.insertRow, hs,
    send_message_ready kc hready, hget]

theorem single_ingest_publish_failure_not_rolled_back_witness :
    (ingest_real_time_data false ⟨1, 0, none, none⟩ ⟨none⟩ ⟨some ProducerState.started⟩
      ⟨⟨[1], [], 0, 0⟩, []⟩).1 = .error .publishError ∧
    get_measurement_by_id 0 (ingest_real_time_data false ⟨1, 0, none, none⟩ ⟨none⟩
      ⟨some ProducerState.started⟩ ⟨⟨[1], [], 0, 0⟩, []⟩).2.store =
      .ok ⟨0, 1, 0, none, none, 0⟩ :=
  single_ingest_publish_failure_not_rolled_back ⟨1, 0, none, none⟩ ⟨none⟩
    ⟨some ProducerState.started⟩ ⟨⟨[1], [], 0, 0⟩, []⟩
    (fun r hr => absurd hr (List.not_mem_nil r)) (by simp) rfl

/-- Claim C3: a single-ingest payload whose `sensor_id` references no existing
sensor fails with the referential error and leaves the whole state (store and
broker) unchanged: no orphaned measurement is persisted and nothing is
published. -/
theorem ingest_unknown_sensor_referential_error
    (ack : Bool) (m : MeasurementCreate) (kafka kc : KafkaClient) (s : SysState)
    (habs : m.sensor_id ∉ s.store.sensors) :
    ingest_real_time_data ack m kafka kc s = (.error .referentialError, s) := by
  simp [ingest_real_time_data, Store.insert, habs]

theorem ingest_unknown_sensor_referential_error_witness :
    ingest_real_time_data true ⟨42, 0, none, none⟩ ⟨none⟩ ⟨some ProducerState.started⟩
      ⟨⟨[1], [], 0, 0⟩, []⟩ = (.error .referentialError, ⟨⟨[1], [], 0, 0⟩, []⟩) :=
  ingest_unknown_sensor_referential_error true ⟨42, 0, none, none⟩ ⟨none⟩
    ⟨some ProducerState.started⟩ ⟨⟨[1], [], 0, 0⟩, []⟩ (by simp)

/-- Claim C6: a successful single ingest appends exactly one message to the
broker log, on topic `"traffic-measurements"`, whose value is the original
caller-supplied payload (not the stored record) and whose key is the string
rendering of the payload's `sensor_id`; the response is the stored record. -/
theorem single_ingest_publishes_original_payload
    (m : MeasurementCreate) (kafka kc : KafkaClient) (s : SysState)
    (hs : m.sensor_id ∈ s.store.sensors)
    (hready : kc.producer = some ProducerState.started) :
    (ingest_real_time_data true m kafka kc s).2.broker =
      s.broker ++ [⟨"traffic-measurements", toString m.sensor_id, m⟩] ∧
    (ingest_real_time_data true m kafka kc s).1 =
      .ok ⟨s.store.nextId, m.sensor_id, m.timestamp, m.speed, m.vehicle_count,
           s.store.clock⟩ := by
  simp [ingest_real_time_data, Store.insert, Store.insertRow, hs,
    send_message_ready kc hready]

theorem single_ingest_publishes_original_payload_witness :
    (ingest_real_time_data true ⟨5, 9, none, none⟩ ⟨none⟩ ⟨some ProducerState.started⟩
      ⟨⟨[5], [], 0, 0⟩, []⟩).2.broker =
      [] ++ [⟨"traffic-measurements", toString (5 : Int), ⟨5, 9, none, none⟩⟩] ∧
    (ingest_real_time_data true ⟨5, 9, none, none⟩ ⟨none⟩ ⟨some ProducerState.started⟩
      ⟨⟨[5], [], 0, 0⟩, []⟩).1 = .ok ⟨0, 5, 9, none, none, 0⟩ :=
  single_ingest_publishes_original_payload ⟨5, 9, none, none⟩ ⟨none⟩
    ⟨some ProducerState.started⟩ ⟨⟨[5], [], 0, 0⟩, []⟩ (by simp) rfl

/-- Claim C9: the single-ingest handler's observable behavior does not depend
on the `KafkaClient` value supplied through its declared dependency
parameter: for any two injected clients the call is identical, because the
handler publishes through the module-level global client. -/
theorem single_ingest_ignores_injected_client
    (ack : Bool) (m : MeasurementCreate) (kafka1 kafka2 kc : KafkaClient)
    (s : SysState) :
    ingest_real_time_data ack m kafka1 kc s =
      ingest_real_time_data ack m kafka2 kc s := rfl

/-- Claim C10: a batch ingest of the empty list performs no publishes, leaves
the store and broker unchanged, and returns the success message
`"Ingested 0 measurements successfully."`. -/
theorem empty_batch_success (ack : Nat → Bool) (kc : KafkaClient) (s : SysState) :
    ingest_batch_data ack [] kc s =
      (.ok "Ingested 0 measurements successfully.", s) := rfl


/-- Claim C4: a single-ingest call returns a stored record (id and created_at
populated by the store) only when both the store insert and the broker
publish succeeded, and whenever it succeeds the returned record is
retrievable from the store by the returned id. -/
theorem single_ingest_success_requires_store_and_publish
    (ack : Bool) (m : MeasurementCreate) (kafka kc : KafkaClient) (s : SysState)
    (hwf : s.store.Wf) (r : TrafficMeasurement)
    (hr : (ingest_real_time_data ack m kafka kc s).1 = .ok r) :
    ack = true ∧ kc.producer = some ProducerState.started ∧
    m.sensor_id ∈ s.store.sensors ∧
    r = ⟨s.store.nextId, m.sensor_id, m.timestamp, m.speed, m.vehicle_count,
         s.store.clock⟩ ∧
    get_measurement_by_id r.id (ingest_real_time_data ack m kafka kc s).2.store =
      .ok r := by
  by_cases hs : m.sensor_id ∈ s.store.sensors
  · match hp : kc.producer with
    | none =>
      simp [ingest_real_time_data, Store.insert, Store.insertRow, hs,
        KafkaClient.send_message, hp] at hr
    | some ProducerState.closed =>
      simp [ingest_real_time_data, Store.insert, Store.insertRow, hs,
        KafkaClient.send_message, hp] at hr
    | some ProducerState.started =>
      cases ack with
      | false =>
        simp [ingest_real_time_data, Store.insert, Store.insertRow, hs,
          send_message_ready kc hp] at hr
      | true =>
        have hrr : r = ⟨s.store.nextId, m.sensor_id, m.timestamp, m.speed,
            m.vehicle_count, s.store.clock⟩ := by
          simp [ingest_real_time_data, Store.insert, Store.insertRow, hs,
            send_message_ready kc hp] at hr
          exact hr.symm
        have hget := get_inserted_row s.store m hwf
        simp only [Store.insertRow] at hget
        refine ⟨rfl, rfl, hs, hrr, ?_⟩
        simp [ingest_real_time_data, Store.insert, Store.insertRow, hs,
          send_message_ready kc hp, hrr, hget]
  · simp [ingest_real_time_data, Store.insert, hs] at hr

theorem single_ingest_success_requires_store_and_publish_witness :
    true = true ∧
    (⟨some ProducerState.started⟩ : KafkaClient).producer = some ProducerState.started ∧
    (⟨1, 0, none, none⟩ : MeasurementCreate).sensor_id ∈
      (⟨⟨[1], [], 0, 0⟩, []⟩ : SysState).store.sensors ∧
    (⟨0, 1, 0, none, none, 0⟩ : TrafficMeasurement) = ⟨0, 1, 0, none, none, 0⟩ ∧
    get_measurement_by_id 0 (ingest_real_time_data true ⟨1, 0, none, none⟩ ⟨none⟩
      ⟨some ProducerState.started⟩ ⟨⟨[1], [], 0, 0⟩, []⟩).2.store =
      .ok ⟨0, 1, 0, none, none, 0⟩ :=
  single_ingest_success_requires_store_and_publish true ⟨1, 0, none, none⟩ ⟨none⟩
    ⟨some ProducerState.started⟩ ⟨⟨[1], [], 0, 0⟩, []⟩
    (fun r hr => absurd hr (List.not_mem_nil r)) ⟨0, 1, 0, none, none, 0⟩ rfl


/-- Claim C2 counterexample: a batch of two valid payloads whose publish
fails at index 0 and would succeed at index 1. The claim predicts both
records stored and index 0 reported as the only publish failure; the code
instead aborts on the first failing publish — the call returns the publish
error, zero records are stored, and the second item is never published
(store and broker are exactly as before the call). -/
theorem batch_best_effort_counterexample :
    (ingest_batch_data (fun i => i != 0) [⟨1, 0, none, none⟩, ⟨1, 1, none, none⟩]
      ⟨some ProducerState.started⟩ ⟨⟨[1], [], 0, 0⟩, []⟩).1 = .error .publishError ∧
    (ingest_batch_data (fun i => i != 0) [⟨1, 0, none, none⟩, ⟨1, 1, none, none⟩]
      ⟨some ProducerState.started⟩ ⟨⟨[1], [], 0, 0⟩, []⟩).2 =
      ⟨⟨[1], [], 0, 0⟩, []⟩ := ⟨rfl, rfl⟩

/-- Claim C2 (amended): a per-item publish failure aborts the batch. When the
first failing index is `j`, the call returns the publish error, no records at
all are stored, items after `j` are not processed, and exactly the messages
of the indices before `j` reach the broker. (All `N` records are stored only
when every item's publish succeeds.) -/
theorem batch_publish_failure_aborts
    (ack : Nat → Bool) (batch : List MeasurementCreate) (kc : KafkaClient)
    (s : SysState) (hready : kc.producer = some ProducerState.started)
    (j : Nat) (hj : j < batch.length) (hfail : ack j = false)
    (hpre : ∀ x, x < j → ack x = true) :
    ingest_batch_data ack batch kc s =
      (.error .publishError,
       ⟨s.store, s.broker ++ (batch.take j).map brokerMsgOf⟩) := by
  have hloop := publishBatchLoop_fail kc hready ack batch 0 s.broker j hj
    (by simpa using hfail) (fun x hx => by simpa using hpre x hx)
  simp [ingest_batch_data, hloop]

theorem batch_publish_failure_aborts_witness :
    ingest_batch_data (fun i => i == 0) [⟨1, 0, none, none⟩, ⟨2, 5, none, none⟩]
      ⟨some ProducerState.started⟩ ⟨⟨[1, 2], [], 0, 0⟩, []⟩ =
      (.error .publishError,
       ⟨⟨[1, 2], [], 0, 0⟩, [⟨"traffic-measurements", "1", ⟨1, 0, none, none⟩⟩]⟩) := by
  have h := batch_publish_failure_aborts (fun i => i == 0)
    [⟨1, 0, none, none⟩, ⟨2, 5, none, none⟩] ⟨some ProducerState.started⟩
    ⟨⟨[1, 2], [], 0, 0⟩, []⟩ rfl 1 (by decide) rfl
    (fun x hx => by
      have hx0 : x = 0 := by omega
      subst hx0
      rfl)
  exact h

/-- Claim C5 counterexample: a single-item batch whose publish fails. The
claim asserts the constructed records are persisted (as one bulk write)
regardless of publish outcomes; the code instead aborts before
`bulk_save_objects`, so after the call the store holds no rows at all and
the call returns the publish error. -/
theorem batch_persist_regardless_counterexample :
    (ingest_batch_data (fun _ => false) [⟨1, 7, none, none⟩]
      ⟨some ProducerState.started⟩ ⟨⟨[1], [], 0, 0⟩, []⟩).2.store.rows = [] ∧
    (ingest_batch_data (fun _ => false) [⟨1, 7, none, none⟩]
      ⟨some ProducerState.started⟩ ⟨⟨[1], [], 0, 0⟩, []⟩).1 =
      .error .publishError := ⟨rfl, rfl⟩

/-- Claim C5 (amended): all broker publishes of a batch occur before any
storage write. When every publish succeeds, the constructed records are
persisted after the publishes as one single bulk write committed atomically
— all `N` rows become visible at once, appended to the store. When some
publish fails (first failing index `j`), the batch aborts before any storage
write: the store is unchanged (none of the rows is visible) even though the
messages of the items before `j` were already published. -/
theorem batch_publish_before_atomic_persist
    (ack : Nat → Bool) (batch : List MeasurementCreate) (kc : KafkaClient)
    (s : SysState) (hready : kc.producer = some ProducerState.started)
    (hfk : ∀ m ∈ batch, m.sensor_id ∈ s.store.sensors) :
    ((∀ j, j < batch.length → ack j = true) →
      ingest_batch_data ack batch kc s =
        (.ok ("Ingested " ++ toString batch.length ++
              " measurements successfully."),
         ⟨s.store.bulkRows batch, s.broker ++ batch.map brokerMsgOf⟩) ∧
      (s.store.bulkRows batch).rows.length =
        s.store.rows.length + batch.length) ∧
    (∀ j, j < batch.length → ack j = false → (∀ x, x < j → ack x = true) →
      (ingest_batch_data ack batch kc s).2.store = s.store ∧
      (ingest_batch_data ack batch kc s).2.broker =
        s.broker ++ (batch.take j).map brokerMsgOf) := by
  constructor
  · intro hok
    have hloop := publishBatchLoop_ok kc hready ack batch 0 s.broker
      (fun j hj => by simpa using hok j hj)
    refine ⟨?_, bulkRows_length batch s.store⟩
    have hall : (batch.all fun m => s.store.sensors.contains m.sensor_id) = true := by
      rw [List.all_eq_true]
      intro m hm
      simpa using hfk m hm
    have hins : s.store.insertMany batch = .ok (s.store.bulkRows batch) := by
      unfold Store.insertMany
      rw [hall]
      rfl
    simp [ingest_batch_data, hloop, hins]
  · intro j hj hfail hpre
    have hloop := publishBatchLoop_fail kc hready ack batch 0 s.broker j hj
      (by simpa using hfail) (fun x hx => by simpa using hpre x hx)
    simp [ingest_batch_data, hloop]

theorem batch_publish_before_atomic_persist_witness :
    ingest_batch_data (fun _ => true) [⟨1, 0, none, none⟩, ⟨1, 3, none, none⟩]
      ⟨some ProducerState.started⟩ ⟨⟨[1], [], 0, 0⟩, []⟩ =
      (.ok "Ingested 2 measurements successfully.",
       ⟨⟨[1], [⟨0, 1, 0, none, none, 0⟩, ⟨1, 1, 3, none, none, 1⟩], 2, 2⟩,
        [⟨"traffic-measurements", "1", ⟨1, 0, none, none⟩⟩,
         ⟨"traffic-measurements", "1", ⟨1, 3, none, none⟩⟩]⟩) := by
  have h := (batch_publish_before_atomic_persist (fun _ => true)
    [⟨1, 0, none, none⟩, ⟨1, 3, none, none⟩] ⟨some ProducerState.started⟩
    ⟨⟨[1], [], 0, 0⟩, []⟩ rfl (by decide)).1 (fun j hj => rfl)
  exact h.1


/-- Claim C7 counterexample: a payload with `vehicle_count = -1` (and
otherwise well-formed fields). The claim predicts a `ValidationError` with no
side effects; the schema declares `vehicle_count: Optional[int]` with no sign
constraint, so validation accepts the negative count and the ingest stores
and publishes the measurement. -/
theorem negative_vehicle_count_accepted :
    MeasurementCreate.validate ⟨.rint 1, .rtime 0, .rnull, .rint (-1)⟩ =
      .ok ⟨1, 0, none, some (-1)⟩ ∧
    ingest_real_time_raw true ⟨.rint 1, .rtime 0, .rnull, .rint (-1)⟩ ⟨none⟩
      ⟨some ProducerState.started⟩ ⟨⟨[1], [], 0, 0⟩, []⟩ =
      (.ok ⟨0, 1, 0, none, some (-1), 0⟩,
       ⟨⟨[1], [⟨0, 1, 0, none, some (-1), 0⟩], 1, 1⟩,
        [⟨"traffic-measurements", "1", ⟨1, 0, none, some (-1)⟩⟩]⟩) := ⟨rfl, rfl⟩

theorem parseRequiredInt_ok_not_rejected (f : RawField) (n : Int)
    (h : parseRequiredInt f = .ok n) : ¬ sensorIdRejected f := by
  cases f with
  | rint m => simp [sensorIdRejected]
  | rdec q =>
    by_cases hq : q.den = 1
    · simp [sensorIdRejected, hq]
    · simp [parseRequiredInt, hq] at h
  | rstr str =>
    cases hs : str.toInt? with
    | none => simp [parseRequiredInt, hs] at h
    | some m => simp [sensorIdRejected, hs]
  | missing => simp [parseRequiredInt] at h
  | rnull => simp [parseRequiredInt] at h
  | rtime t => simp [parseRequiredInt] at h

theorem parseRequiredTimestamp_ok_not_rejected (f : RawField) (t : Int)
    (h : parseRequiredTimestamp f = .ok t) : ¬ timestampRejected f := by
  cases f with
  | rtime u => simp [timestampRejected]
  | rint n => simp [timestampRejected]
  | missing => simp [parseRequiredTimestamp] at h
  | rnull => simp [parseRequiredTimestamp] at h
  | rdec q => simp [parseRequiredTimestamp] at h
  | rstr str => simp [parseRequiredTimestamp] at h

theorem parseOptionalFloat_ok_not_rejected (f : RawField) (o : Option Rat)
    (h : parseOptionalFloat f = .ok o) : ¬ speedRejected f := by
  cases f with
  | missing => simp [speedRejected]
  | rnull => simp [speedRejected]
  | rint n => simp [speedRejected]
  | rdec q => simp [speedRejected]
  | rstr str =>
    cases hs : str.toInt? with
    | none => simp [parseOptionalFloat, hs] at h
    | some m => simp [speedRejected, hs]
  | rtime t => simp [parseOptionalFloat] at h

theorem parseOptionalInt_ok_not_rejected (f : RawField) (o : Option Int)
    (h : parseOptionalInt f = .ok o) : ¬ vehicleCountRejected f := by
  cases f with
  | missing => simp [vehicleCountRejected]
  | rnull => simp [vehicleCountRejected]
  | rint n => simp [vehicleCountRejected]
  | rdec q =>
    by_cases hq : q.den = 1
    · simp [vehicleCountRejected, hq]
    · simp [parseOptionalInt, parseRequiredInt, hq, Except.map] at h
  | rstr str =>
    cases hs : str.toInt? with
    | none => simp [parseOptionalInt, parseRequiredInt, hs, Except.map] at h
    | some m => simp [vehicleCountRejected, hs]
  | rtime t => simp [parseOptionalInt, parseRequiredInt, Except.map] at h

/-- Claim C7 (amended): a payload with any malformed field — `sensor_id`
missing, null, or not a well-typed integer; `timestamp` missing or not a
well-typed datetime; `speed` present but not numeric; or `vehicle_count`
present but not a well-typed integer — fails with `ValidationError` and
performs no storage write and no broker publish. (A negative
`vehicle_count`, however, is accepted: the schema places no non-negativity
constraint on it.) -/
theorem malformed_payload_validation_error
    (ack : Bool) (raw : RawPayload) (kafka kc : KafkaClient) (s : SysState)
    (hmal : sensorIdRejected raw.sensor_id ∨ timestampRejected raw.timestamp ∨
      speedRejected raw.speed ∨ vehicleCountRejected raw.vehicle_count) :
    ingest_real_time_raw ack raw kafka kc s = (.error .validationError, s) := by
  suffices h : ∃ e, MeasurementCreate.validate raw = .error e by
    obtain ⟨e, he⟩ := h
    simp [ingest_real_time_raw, he]
  cases hp : parseRequiredInt raw.sensor_id with
  | error e => exact ⟨e, by simp [MeasurementCreate.validate, hp]⟩
  | ok sid =>
    cases ht : parseRequiredTimestamp raw.timestamp with
    | error e => exact ⟨e, by simp [MeasurementCreate.validate, hp, ht]⟩
    | ok ts =>
      cases hsp : parseOptionalFloat raw.speed with
      | error e => exact ⟨e, by simp [MeasurementCreate.validate, hp, ht, hsp]⟩
      | ok sp =>
        cases hvc : parseOptionalInt raw.vehicle_count with
        | error e => exact ⟨e, by simp [MeasurementCreate.validate, hp, ht, hsp, hvc]⟩
        | ok vc =>
          exfalso
          rcases hmal with h | h | h | h
          · exact parseRequiredInt_ok_not_rejected raw.sensor_id sid hp h
          · exact parseRequiredTimestamp_ok_not_rejected raw.timestamp ts ht h
          · exact parseOptionalFloat_ok_not_rejected raw.speed sp hsp h
          · exact parseOptionalInt_ok_not_rejected raw.vehicle_count vc hvc h

theorem malformed_payload_validation_error_witness :
    ingest_real_time_raw true ⟨.rint 1, .rtime 0, .rtime 5, .rnull⟩ ⟨none⟩
      ⟨some ProducerState.started⟩ ⟨⟨[1], [], 0, 0⟩, []⟩ =
      (.error .validationError, ⟨⟨[1], [], 0, 0⟩, []⟩) :=
  malformed_payload_validation_error true ⟨.rint 1, .rtime 0, .rtime 5, .rnull⟩
    ⟨none⟩ ⟨some ProducerState.started⟩ ⟨⟨[1], [], 0, 0⟩, []⟩
    (Or.inr (Or.inr (Or.inl trivial)))

/-- Claim C8 counterexample: from `Ready`, `close` does move the client to
`Closed`; but `Closed` is not terminal — calling the initialization routine
again installs a fresh started producer, after which publish succeeds. The
claimed terminal transition `Ready → Closed` therefore fails. -/
theorem kafka_closed_not_terminal :
    KafkaClient.closeClient (KafkaClient.initClient ⟨none⟩) =
      .ok ⟨some ProducerState.closed⟩ ∧
    KafkaClient.send_message (KafkaClient.initClient ⟨some ProducerState.closed⟩)
      true "traffic-measurements" ⟨1, 0, none, none⟩ "1" [] =
      .ok [⟨"traffic-measurements", "1", ⟨1, 0, none, none⟩⟩] := ⟨rfl, rfl⟩

/-- Claim C8 (amended): publish is valid only with a started producer:
with no producer installed (before initialization) it fails with
`IllegalStateError`, and after `close` (with no intervening
re-initialization) it fails with `IllegalStateError`; however `Closed` is
not terminal — re-running the initialization routine returns the client to
`Ready`, where publish succeeds. -/
theorem kafka_publish_only_when_ready
    (k : KafkaClient) (ack : Bool) (topic : String) (v : MeasurementCreate)
    (key : String) (log : List BrokerMsg) :
    (k.producer = none →
      k.send_message ack topic v key log = .error .illegalStateError) ∧
    (∀ k2, k.closeClient = .ok k2 →
      k2.send_message ack topic v key log = .error .illegalStateError) ∧
    (KafkaClient.initClient k).send_message true topic v key log =
      .ok (log ++ [⟨topic, key, v⟩]) := by
  refine ⟨fun h => by simp [KafkaClient.send_message, h], fun k2 h2 => ?_, rfl⟩
  match hp : k.producer with
  | none => simp [KafkaClient.closeClient, hp] at h2
  | some st =>
    have hk2 : k2 = ⟨some ProducerState.closed⟩ := by
      simp [KafkaClient.closeClient, hp] at h2
      exact h2.symm
    rw [hk2]
    rfl

theorem kafka_publish_only_when_ready_witness :
    KafkaClient.send_message ⟨none⟩ true "traffic-measurements"
      ⟨1, 0, none, none⟩ "1" [] = .error .illegalStateError ∧
    KafkaClient.send_message ⟨some ProducerState.closed⟩ true
      "traffic-measurements" ⟨1, 0, none, none⟩ "1" [] =
      .error .illegalStateError :=
  ⟨(kafka_publish_only_when_ready ⟨none⟩ true "traffic-measurements"
      ⟨1, 0, none, none⟩ "1" []).1 rfl,
   (kafka_publish_only_when_ready ⟨some ProducerState.started⟩ true
      "traffic-measurements" ⟨1, 0, none, none⟩ "1" []).2.1
      ⟨some ProducerState.closed⟩ rfl⟩

end Traffic
